import Mathlib

/-!
Shallow embedding of the `owl2bench` query suite of the repository
`sorinar329/krrood_experiments` (two source files:
`src/owl2bench/owlready2_queries.py` and `src/owl2bench/rdflib_queries.py`).

Entities (ontology individuals / RDF nodes) are modelled as `String`s.
The owlready2 backend sees an ontology through object access: the list of
individuals, multi-valued property access (`x.prop` yields a list), the
functional data property `hasAge` (yields a single value or `None`), and
class instance enumeration.  The rdflib backend sees a graph as a list of
(subject, predicate, object) triples with full-URI node names, and each
query is the evaluation of a SPARQL SELECT DISTINCT over a basic graph
pattern, with every binding stringified by `_run_sparql`.
-/

/-- The rdflib/SPARQL URI of a name under the `owl2bench:` prefix
(`PREFIX owl2bench: <http://benchmark/OWL2Bench#>` in the source). -/
def owl2bench (s : String) : String := "http://benchmark/OWL2Bench#" ++ s

/-- The `rdf:type` predicate URI (`PREFIX rdf:` in the source). -/
def rdfTypeUri : String := "http://www.w3.org/1999/02/22-rdf-syntax-ns#type"

namespace owlready2_queries

/-- The view of the loaded, reasoner-materialized ontology that
`owlready2_queries.py` uses: `onto.individuals()`, attribute-style
property traversal `x.prop` (a list of related entities), the functional
data property `x.hasAge` (a single nonNegativeInteger or `None`), and
`onto.C.instances()` for a named class `C`. -/
structure OwlOnto where
  individuals : List String
  rel : String → String → List String
  hasAge : String → Option Nat
  instancesOf : String → List String

/-- query_one: for x in onto.individuals(), for y in x.knows, add (x, y). -/
def query_one (o : OwlOnto) : Finset (String × String) :=
  (o.individuals.flatMap (fun x => (o.rel "knows" x).map (fun y => (x, y)))).toFinset

/-- query_two: for x in onto.individuals(), for y in x.isMemberOf, add (x, y). -/
def query_two (o : OwlOnto) : Finset (String × String) :=
  (o.individuals.flatMap (fun x => (o.rel "isMemberOf" x).map (fun y => (x, y)))).toFinset

/-- query_three: for x in onto.individuals(), for y in x.isPartOf, add (x, y). -/
def query_three (o : OwlOnto) : Finset (String × String) :=
  (o.individuals.flatMap (fun x => (o.rel "isPartOf" x).map (fun y => (x, y)))).toFinset

/-- query_four: for x in onto.individuals(), `if x.hasAge:` add (x, x.hasAge).
`hasAge` is a functional data property, so the Python attribute holds a single
int or `None`; the Python truthiness test is false for `None` and also for the
integer value 0. -/
def query_four (o : OwlOnto) : Finset (String × Nat) :=
  (o.individuals.filterMap (fun x =>
    match o.hasAge x with
    | some a => if a ≠ 0 then some (x, a) else none
    | none => none)).toFinset

/-- query_five: all instances of class T20CricketFan. -/
def query_five (o : OwlOnto) : Finset String :=
  (o.instancesOf "T20CricketFan").toFinset

/-- query_six: all instances of class SelfAwarePerson. -/
def query_six (o : OwlOnto) : Finset String :=
  (o.instancesOf "SelfAwarePerson").toFinset

/-- query_seven: for x in onto.individuals(), for y in x.hasAlumnus, add (x, y). -/
def query_seven (o : OwlOnto) : Finset (String × String) :=
  (o.individuals.flatMap (fun x => (o.rel "hasAlumnus" x).map (fun y => (x, y)))).toFinset

/-- query_eight: for x in onto.individuals(), for y in x.isAffiliatedOrganizationOf, add (x, y). -/
def query_eight (o : OwlOnto) : Finset (String × String) :=
  (o.individuals.flatMap (fun x =>
    (o.rel "isAffiliatedOrganizationOf" x).map (fun y => (x, y)))).toFinset

/-- query_nine: for x in onto.individuals(), add x if
x is in onto.NonScience.hasCollegeDiscipline, i.e. if x occurs among the
hasCollegeDiscipline values of the entity named NonScience. -/
def query_nine (o : OwlOnto) : Finset String :=
  (o.individuals.filter
    (fun x => x ∈ o.rel "hasCollegeDiscipline" "NonScience")).toFinset

/-- query_ten: for x in onto.individuals(), for y in x.hasCollaborationWith, add (x, y). -/
def query_ten (o : OwlOnto) : Finset (String × String) :=
  (o.individuals.flatMap (fun x =>
    (o.rel "hasCollaborationWith" x).map (fun y => (x, y)))).toFinset

/-- query_eleven: for x in onto.individuals(), for y in x.isAdvisedBy, add (x, y). -/
def query_eleven (o : OwlOnto) : Finset (String × String) :=
  (o.individuals.flatMap (fun x => (o.rel "isAdvisedBy" x).map (fun y => (x, y)))).toFinset

/-- query_twelve: all instances of class Person. -/
def query_twelve (o : OwlOnto) : Finset String :=
  (o.instancesOf "Person").toFinset

/-- query_thirteen: all instances of class WomanCollege. -/
def query_thirteen (o : OwlOnto) : Finset String :=
  (o.instancesOf "WomanCollege").toFinset

/-- query_fourteen: all instances of class LeisureStudent. -/
def query_fourteen (o : OwlOnto) : Finset String :=
  (o.instancesOf "LeisureStudent").toFinset

/-- query_fifteen: for x in onto.individuals(), for y in x.isHeadOf, add (x, y). -/
def query_fifteen (o : OwlOnto) : Finset (String × String) :=
  (o.individuals.flatMap (fun x => (o.rel "isHeadOf" x).map (fun y => (x, y)))).toFinset

/-- query_sixteen: for x in onto.individuals(), for y in x.hasHead, add (x, y). -/
def query_sixteen (o : OwlOnto) : Finset (String × String) :=
  (o.individuals.flatMap (fun x => (o.rel "hasHead" x).map (fun y => (x, y)))).toFinset

/-- query_seventeen: all instances of class UGStudent. -/
def query_seventeen (o : OwlOnto) : Finset String :=
  (o.instancesOf "UGStudent").toFinset

/-- query_eighteen: all instances of class PeopleWithManyHobbies. -/
def query_eighteen (o : OwlOnto) : Finset String :=
  (o.instancesOf "PeopleWithManyHobbies").toFinset

/-- query_nineteen: all instances of class Faculty. -/
def query_nineteen (o : OwlOnto) : Finset String :=
  (o.instancesOf "Faculty").toFinset

/-- query_twenty: for x in onto.individuals(), for y in x.hasSameHomeTownWith, add (x, y). -/
def query_twenty (o : OwlOnto) : Finset (String × String) :=
  (o.individuals.flatMap (fun x =>
    (o.rel "hasSameHomeTownWith" x).map (fun y => (x, y)))).toFinset

/-- query_twenty_one: for x in onto.Student.instances(), for y in x.isStudentOf,
for z in y.isPartOf, if onto.Engineering in z.hasCollegeDiscipline then add (x, y).
The filter variable z is joined but not projected. -/
def query_twenty_one (o : OwlOnto) : Finset (String × String) :=
  ((o.instancesOf "Student").flatMap (fun x =>
    (o.rel "isStudentOf" x).flatMap (fun y =>
      (o.rel "isPartOf" y).filterMap (fun z =>
        if "Engineering" ∈ o.rel "hasCollegeDiscipline" z
        then some (x, y) else none)))).toFinset

/-- query_twenty_two: for s in onto.Student.instances(), for x in
onto.Organization.instances(), for z in x.hasDean, for c in z.teachesCourse,
if c in s.takesCourse then add (s, c). -/
def query_twenty_two (o : OwlOnto) : Finset (String × String) :=
  ((o.instancesOf "Student").flatMap (fun s =>
    (o.instancesOf "Organization").flatMap (fun x =>
      (o.rel "hasDean" x).flatMap (fun z =>
        (o.rel "teachesCourse" z).filterMap (fun c =>
          if c ∈ o.rel "takesCourse" s then some (s, c) else none))))).toFinset

/-- run_all_queries_rl: the hard-coded RL-profile report, a dict literal
mapping each selected query name to `len` of its result (the "sixteen"
entry is commented out in this backend). -/
def run_all_queries_rl (o : OwlOnto) : List (String × Nat) :=
  [("two", (query_two o).card),
   ("three", (query_three o).card),
   ("four", (query_four o).card),
   ("five", (query_five o).card),
   ("seven", (query_seven o).card),
   ("eight", (query_eight o).card),
   ("ten", (query_ten o).card),
   ("eleven", (query_eleven o).card),
   ("twelve", (query_twelve o).card),
   ("fifteen", (query_fifteen o).card),
   ("nineteen", (query_nineteen o).card),
   ("twenty", (query_twenty o).card),
   ("twenty_one", (query_twenty_one o).card),
   ("twenty_two", (query_twenty_two o).card)]

end owlready2_queries

namespace rdflib_queries

/-- An rdflib Graph: a collection of (subject, predicate, object) triples.
Nodes are modelled by the string rdflib's `str` would render them to
(the full URI of a URIRef, the lexical form of a Literal). -/
abbrev Graph := List (String × String × String)

/-- Stringification of one SPARQL binding as done inside `_run_sparql`:
`str(v) if v is not None else ""`. -/
def strBinding : Option String → String
  | some v => v
  | none => ""

/-- Embedding of `_run_sparql`: given the solution rows produced by the
SPARQL engine for the query (each row the list of values of the SELECT
variables, in order, possibly unbound), stringify every binding and
collect the tuples into a set. -/
def run_sparql (rows : List (List (Option String))) : Finset (List String) :=
  (rows.map (fun row => row.map strBinding)).toFinset

/-- Solution rows of the single-pattern query `SELECT DISTINCT ?x ?y` over
the pattern relating ?x to ?y via predicate p. -/
def pairRows (g : Graph) (p : String) : List (List (Option String)) :=
  g.filterMap (fun t =>
    if t.2.1 = p then some [some t.1, some t.2.2] else none)

/-- Solution rows of the single-pattern query `SELECT DISTINCT ?x` over
the pattern typing ?x with class c via rdf:type. -/
def typeRows (g : Graph) (c : String) : List (List (Option String)) :=
  g.filterMap (fun t =>
    if t.2.1 = rdfTypeUri ∧ t.2.2 = c then some [some t.1] else none)

/-- Objects related to subject s via predicate p, for evaluating joined
basic graph patterns. -/
def objectsOf (g : Graph) (s p : String) : List String :=
  g.filterMap (fun t => if t.1 = s ∧ t.2.1 = p then some t.2.2 else none)

/-- Subjects typed with class c via rdf:type, for evaluating joined basic
graph patterns. -/
def typedSubjects (g : Graph) (c : String) : List String :=
  g.filterMap (fun t =>
    if t.2.1 = rdfTypeUri ∧ t.2.2 = c then some t.1 else none)

/-- query_one: SELECT DISTINCT ?x ?y over the knows pattern. -/
def query_one (g : Graph) : Finset (List String) :=
  run_sparql (pairRows g (owl2bench "knows"))

/-- query_two: SELECT DISTINCT ?x ?y over the isMemberOf pattern. -/
def query_two (g : Graph) : Finset (List String) :=
  run_sparql (pairRows g (owl2bench "isMemberOf"))

/-- query_three: SELECT DISTINCT ?x ?y over the isPartOf pattern. -/
def query_three (g : Graph) : Finset (List String) :=
  run_sparql (pairRows g (owl2bench "isPartOf"))

/-- query_four: SELECT DISTINCT ?x ?y over the hasAge pattern. -/
def query_four (g : Graph) : Finset (List String) :=
  run_sparql (pairRows g (owl2bench "hasAge"))

/-- query_five: SELECT DISTINCT ?x over the rdf:type T20CricketFan pattern. -/
def query_five (g : Graph) : Finset (List String) :=
  run_sparql (typeRows g (owl2bench "T20CricketFan"))

/-- query_six: SELECT DISTINCT ?x over the rdf:type SelfAwarePerson pattern. -/
def query_six (g : Graph) : Finset (List String) :=
  run_sparql (typeRows g (owl2bench "SelfAwarePerson"))

/-- query_seven: SELECT DISTINCT ?x ?y over the hasAlumnus pattern. -/
def query_seven (g : Graph) : Finset (List String) :=
  run_sparql (pairRows g (owl2bench "hasAlumnus"))

/-- query_eight: SELECT DISTINCT ?x ?y over the isAffiliatedOrganizationOf pattern. -/
def query_eight (g : Graph) : Finset (List String) :=
  run_sparql (pairRows g (owl2bench "isAffiliatedOrganizationOf"))

/-- query_nine: SELECT DISTINCT ?x over the pattern with ?x as subject,
predicate hasCollegeDiscipline and the fixed object NonScience. -/
def query_nine (g : Graph) : Finset (List String) :=
  run_sparql (g.filterMap (fun t =>
    if t.2.1 = owl2bench "hasCollegeDiscipline" ∧ t.2.2 = owl2bench "NonScience"
    then some [some t.1] else none))

/-- query_ten: SELECT DISTINCT ?x ?y over the hasCollaborationWith pattern. -/
def query_ten (g : Graph) : Finset (List String) :=
  run_sparql (pairRows g (owl2bench "hasCollaborationWith"))

/-- query_eleven: SELECT DISTINCT ?x ?y over the isAdvisedBy pattern. -/
def query_eleven (g : Graph) : Finset (List String) :=
  run_sparql (pairRows g (owl2bench "isAdvisedBy"))

/-- query_twelve: SELECT DISTINCT ?x over the rdf:type Person pattern. -/
def query_twelve (g : Graph) : Finset (List String) :=
  run_sparql (typeRows g (owl2bench "Person"))

/-- query_thirteen: SELECT DISTINCT ?x over the rdf:type WomanCollege pattern. -/
def query_thirteen (g : Graph) : Finset (List String) :=
  run_sparql (typeRows g (owl2bench "WomanCollege"))

/-- query_fourteen: SELECT DISTINCT ?x over the rdf:type LeisureStudent pattern. -/
def query_fourteen (g : Graph) : Finset (List String) :=
  run_sparql (typeRows g (owl2bench "LeisureStudent"))

/-- query_fifteen: SELECT DISTINCT ?x ?y over the isHeadOf pattern. -/
def query_fifteen (g : Graph) : Finset (List String) :=
  run_sparql (pairRows g (owl2bench "isHeadOf"))

/-- query_sixteen: SELECT DISTINCT ?x ?y over the hasHead pattern. -/
def query_sixteen (g : Graph) : Finset (List String) :=
  run_sparql (pairRows g (owl2bench "hasHead"))

/-- query_seventeen: SELECT DISTINCT ?x over the rdf:type UGStudent pattern. -/
def query_seventeen (g : Graph) : Finset (List String) :=
  run_sparql (typeRows g (owl2bench "UGStudent"))

/-- query_eighteen: SELECT DISTINCT ?x over the rdf:type PeopleWithManyHobbies pattern. -/
def query_eighteen (g : Graph) : Finset (List String) :=
  run_sparql (typeRows g (owl2bench "PeopleWithManyHobbies"))

/-- query_nineteen: SELECT DISTINCT ?x over the rdf:type Faculty pattern. -/
def query_nineteen (g : Graph) : Finset (List String) :=
  run_sparql (typeRows g (owl2bench "Faculty"))

/-- query_twenty: SELECT DISTINCT ?x ?y over the hasSameHomeTownWith pattern. -/
def query_twenty (g : Graph) : Finset (List String) :=
  run_sparql (pairRows g (owl2bench "hasSameHomeTownWith"))

/-- query_twenty_one: SELECT DISTINCT ?s ?org ?z over the four-pattern join
(?s typed Student, ?s isStudentOf ?org, ?org isPartOf ?z,
?z hasCollegeDiscipline Engineering).  All three variables of the join,
including the filter variable ?z, appear in the SELECT clause of the source
query, so every solution row has arity three. -/
def query_twenty_one (g : Graph) : Finset (List String) :=
  run_sparql ((typedSubjects g (owl2bench "Student")).flatMap (fun s =>
    (objectsOf g s (owl2bench "isStudentOf")).flatMap (fun org =>
      (objectsOf g org (owl2bench "isPartOf")).filterMap (fun z =>
        if (z, owl2bench "hasCollegeDiscipline", owl2bench "Engineering") ∈ g
        then some [some s, some org, some z] else none))))

/-- query_twenty_two: SELECT DISTINCT ?s ?c over the five-pattern join
(?s typed Student, ?x typed Organization, ?x hasDean ?z,
?z teachesCourse ?c, ?s takesCourse ?c). -/
def query_twenty_two (g : Graph) : Finset (List String) :=
  run_sparql ((typedSubjects g (owl2bench "Student")).flatMap (fun s =>
    (typedSubjects g (owl2bench "Organization")).flatMap (fun x =>
      (objectsOf g x (owl2bench "hasDean")).flatMap (fun z =>
        (objectsOf g z (owl2bench "teachesCourse")).filterMap (fun c =>
          if (s, owl2bench "takesCourse", c) ∈ g
          then some [some s, some c] else none)))))

/-- run_all_queries_rl: the hard-coded RL-profile report, a dict literal
mapping each selected query name to `len` of its result (this backend
includes the "sixteen" entry). -/
def run_all_queries_rl (g : Graph) : List (String × Nat) :=
  [("two", (query_two g).card),
   ("three", (query_three g).card),
   ("four", (query_four g).card),
   ("five", (query_five g).card),
   ("seven", (query_seven g).card),
   ("eight", (query_eight g).card),
   ("ten", (query_ten g).card),
   ("eleven", (query_eleven g).card),
   ("twelve", (query_twelve g).card),
   ("fifteen", (query_fifteen g).card),
   ("sixteen", (query_sixteen g).card),
   ("nineteen", (query_nineteen g).card),
   ("twenty", (query_twenty g).card),
   ("twenty_one", (query_twenty_one g).card),
   ("twenty_two", (query_twenty_two g).card)]

end rdflib_queries

/-- A cell of a result tuple when the two-backend catalogs are put behind a
single uniform interface: an entity name or a data value (the age integer). -/
abbrev Cell := String ⊕ Nat

/-- Uniform view of an arity-1 owlready2 result. -/
def wrap1 (s : Finset String) : Finset (List Cell) :=
  s.image (fun x => [Sum.inl x])

/-- Uniform view of an arity-2 owlready2 result of entity pairs. -/
def wrap2 (s : Finset (String × String)) : Finset (List Cell) :=
  s.image (fun p => [Sum.inl p.1, Sum.inl p.2])

/-- Uniform view of an arity-2 owlready2 result of (entity, data value) pairs. -/
def wrapData (s : Finset (String × Nat)) : Finset (List Cell) :=
  s.image (fun p => [Sum.inl p.1, Sum.inr p.2])

/-- The owlready2 backend's query catalog: the 22 query functions the module
defines, keyed by name, in declaration order. -/
def owlCatalog : List (String × (owlready2_queries.OwlOnto → Finset (List Cell))) :=
  [("one", fun o => wrap2 (owlready2_queries.query_one o)),
   ("two", fun o => wrap2 (owlready2_queries.query_two o)),
   ("three", fun o => wrap2 (owlready2_queries.query_three o)),
   ("four", fun o => wrapData (owlready2_queries.query_four o)),
   ("five", fun o => wrap1 (owlready2_queries.query_five o)),
   ("six", fun o => wrap1 (owlready2_queries.query_six o)),
   ("seven", fun o => wrap2 (owlready2_queries.query_seven o)),
   ("eight", fun o => wrap2 (owlready2_queries.query_eight o)),
   ("nine", fun o => wrap1 (owlready2_queries.query_nine o)),
   ("ten", fun o => wrap2 (owlready2_queries.query_ten o)),
   ("eleven", fun o => wrap2 (owlready2_queries.query_eleven o)),
   ("twelve", fun o => wrap1 (owlready2_queries.query_twelve o)),
   ("thirteen", fun o => wrap1 (owlready2_queries.query_thirteen o)),
   ("fourteen", fun o => wrap1 (owlready2_queries.query_fourteen o)),
   ("fifteen", fun o => wrap2 (owlready2_queries.query_fifteen o)),
   ("sixteen", fun o => wrap2 (owlready2_queries.query_sixteen o)),
   ("seventeen", fun o => wrap1 (owlready2_queries.query_seventeen o)),
   ("eighteen", fun o => wrap1 (owlready2_queries.query_eighteen o)),
   ("nineteen", fun o => wrap1 (owlready2_queries.query_nineteen o)),
   ("twenty", fun o => wrap2 (owlready2_queries.query_twenty o)),
   ("twenty_one", fun o => wrap2 (owlready2_queries.query_twenty_one o)),
   ("twenty_two", fun o => wrap2 (owlready2_queries.query_twenty_two o))]

/-- The rdflib backend's query catalog: the 22 query functions the module
defines, keyed by name, in declaration order. -/
def rdfCatalog : List (String × (rdflib_queries.Graph → Finset (List String))) :=
  [("one", rdflib_queries.query_one),
   ("two", rdflib_queries.query_two),
   ("three", rdflib_queries.query_three),
   ("four", rdflib_queries.query_four),
   ("five", rdflib_queries.query_five),
   ("six", rdflib_queries.query_six),
   ("seven", rdflib_queries.query_seven),
   ("eight", rdflib_queries.query_eight),
   ("nine", rdflib_queries.query_nine),
   ("ten", rdflib_queries.query_ten),
   ("eleven", rdflib_queries.query_eleven),
   ("twelve", rdflib_queries.query_twelve),
   ("thirteen", rdflib_queries.query_thirteen),
   ("fourteen", rdflib_queries.query_fourteen),
   ("fifteen", rdflib_queries.query_fifteen),
   ("sixteen", rdflib_queries.query_sixteen),
   ("seventeen", rdflib_queries.query_seventeen),
   ("eighteen", rdflib_queries.query_eighteen),
   ("nineteen", rdflib_queries.query_nineteen),
   ("twenty", rdflib_queries.query_twenty),
   ("twenty_one", rdflib_queries.query_twenty_one),
   ("twenty_two", rdflib_queries.query_twenty_two)]

/-- The key sequence of the owlready2 `run_all_queries_rl` dict literal
(its RL-subset allow-list), in source order. -/
def owlRlNames : List String :=
  ["two", "three", "four", "five", "seven", "eight", "ten", "eleven",
   "twelve", "fifteen", "nineteen", "twenty", "twenty_one", "twenty_two"]

/-- The key sequence of the rdflib `run_all_queries_rl` dict literal
(its RL-subset allow-list), in source order. -/
def rdfRlNames : List String :=
  ["two", "three", "four", "five", "seven", "eight", "ten", "eleven",
   "twelve", "fifteen", "sixteen", "nineteen", "twenty", "twenty_one",
   "twenty_two"]

/-- Modelled from the spec: the error carrying the offending name that the
catalog lookup raises for an absent query name.  The repository's source
has no explicit catalog object or error type (each backend module just
defines its 22 query functions and a hard-coded aggregator dict), so the
NotFoundError of spec section 7 is modelled from the spec's words. -/
structure NotFoundError where
  name : String
deriving DecidableEq

/-- Modelled from the spec: the Query Catalog lookup `get(name)` of spec
section 4.2, which the source does not implement as code: resolve the name
in the catalog, failing with `NotFoundError` carrying the offending name
when it is absent. -/
def catalogGet {α : Type} (cat : List (String × α)) (name : String) :
    Except NotFoundError α :=
  match cat.find? (fun pr => pr.1 == name) with
  | some pr => Except.ok pr.2
  | none => Except.error ⟨name⟩

/-- Modelled from the spec: the Query Catalog enumeration `all()` of spec
section 4.2, returning the query definitions in canonical declaration
order. -/
def catalogAll {α : Type} (cat : List (String × α)) : List (String × α) := cat

/-- Explicit-state view of one owlready2 evaluate call: the source query
bodies only read `onto` (they iterate over it and build a fresh local
Python set; no statement assigns into the ontology), so a call yields its
result set together with the handle, which comes back unchanged. -/
def evalOwl (q : owlready2_queries.OwlOnto → Finset (List Cell))
    (o : owlready2_queries.OwlOnto) :
    Finset (List Cell) × owlready2_queries.OwlOnto :=
  (q o, o)

/-- Explicit-state view of one rdflib evaluate call: `g.query` and the row
iteration in `_run_sparql` only read the graph, so a call yields its
result set together with the graph, which comes back unchanged. -/
def evalRdf (q : rdflib_queries.Graph → Finset (List String))
    (g : rdflib_queries.Graph) :
    Finset (List String) × rdflib_queries.Graph :=
  (q g, g)

/-- Concrete ontology for claim C1: one Student s1 studying at org1, which
is part of z1, whose hasCollegeDiscipline includes Engineering. -/
def oC1 : owlready2_queries.OwlOnto where
  individuals := ["s1", "org1", "z1", "Engineering"]
  rel := fun p x =>
    if p = "isStudentOf" ∧ x = "s1" then ["org1"]
    else if p = "isPartOf" ∧ x = "org1" then ["z1"]
    else if p = "hasCollegeDiscipline" ∧ x = "z1" then ["Engineering"]
    else []
  hasAge := fun _ => none
  instancesOf := fun c => if c = "Student" then ["s1"] else []

/-- Concrete graph for claim C1 with the same content as `oC1`. -/
def gC1 : rdflib_queries.Graph :=
  [(owl2bench "s1", rdfTypeUri, owl2bench "Student"),
   (owl2bench "s1", owl2bench "isStudentOf", owl2bench "org1"),
   (owl2bench "org1", owl2bench "isPartOf", owl2bench "z1"),
   (owl2bench "z1", owl2bench "hasCollegeDiscipline", owl2bench "Engineering")]

/-- Concrete ontology for claim C2: one individual CollegeA whose
hasCollegeDiscipline value is NonScience; NonScience itself has no
hasCollegeDiscipline values. -/
def oC2 : owlready2_queries.OwlOnto where
  individuals := ["CollegeA", "NonScience"]
  rel := fun p x =>
    if p = "hasCollegeDiscipline" ∧ x = "CollegeA" then ["NonScience"] else []
  hasAge := fun _ => none
  instancesOf := fun _ => []

/-- Concrete graph for claim C2 with the same content as `oC2`. -/
def gC2 : rdflib_queries.Graph :=
  [(owl2bench "CollegeA", owl2bench "hasCollegeDiscipline", owl2bench "NonScience")]

/-- Concrete ontology for claim C3's witness: no individuals, no facts. -/
def oC3 : owlready2_queries.OwlOnto :=
  ⟨[], fun _ _ => [], fun _ => none, fun _ => []⟩

/-- Concrete ontology for claim C4's witness. -/
def oC4 : owlready2_queries.OwlOnto :=
  ⟨["a"], fun p x => if p = "knows" ∧ x = "a" then ["a"] else [],
   fun _ => none, fun _ => []⟩

/-- Concrete graph for claim C4's witness. -/
def gC4 : rdflib_queries.Graph :=
  [(owl2bench "a", owl2bench "knows", owl2bench "a")]

/-- Concrete ontology for claim C5: Person p0 has declared age 0, Person p1
has declared age 25; both have exactly one declared hasAge value. -/
def oC5 : owlready2_queries.OwlOnto where
  individuals := ["p0", "p1"]
  rel := fun _ _ => []
  hasAge := fun x => if x = "p0" then some 0 else if x = "p1" then some 25 else none
  instancesOf := fun c => if c = "Person" then ["p0", "p1"] else []

/-- Concrete graph for claim C5 with the same content as `oC5`. -/
def gC5 : rdflib_queries.Graph :=
  [(owl2bench "p0", owl2bench "hasAge", "0"),
   (owl2bench "p1", owl2bench "hasAge", "25")]

/-- Concrete ontology for claim C6's witness: A knows B and A knows A. -/
def oC6 : owlready2_queries.OwlOnto :=
  ⟨["A", "B"], fun p x => if p = "knows" ∧ x = "A" then ["B", "A"] else [],
   fun _ => none, fun _ => []⟩

/-- Concrete graph for claim C6's witness. -/
def gC6 : rdflib_queries.Graph :=
  [(owl2bench "A", owl2bench "knows", owl2bench "B")]

/-- Concrete ontology for claim C7's witness. -/
def oC7 : owlready2_queries.OwlOnto :=
  ⟨["a"], fun p x => if p = "knows" ∧ x = "a" then ["a"] else [],
   fun _ => none, fun _ => []⟩

/-- Concrete graph for claim C7's witness. -/
def gC7 : rdflib_queries.Graph :=
  [(owl2bench "a", owl2bench "knows", owl2bench "a")]

/-- Concrete ontology for claim C8's witness: individuals exist but every
property and class extent is empty. -/
def oC8 : owlready2_queries.OwlOnto :=
  ⟨["a", "b"], fun _ _ => [], fun _ => none, fun _ => []⟩

/-- The 22 query names in the declaration order of both backend modules. -/
def queryDeclOrder : List String :=
  ["one", "two", "three", "four", "five", "six", "seven", "eight", "nine",
   "ten", "eleven", "twelve", "thirteen", "fourteen", "fifteen", "sixteen",
   "seventeen", "eighteen", "nineteen", "twenty", "twenty_one", "twenty_two"]

/-- Passing an arity-2 owlready2 result to the uniform view keeps its
cardinality. -/
theorem wrap2_card (s : Finset (String × String)) : (wrap2 s).card = s.card := by
  unfold wrap2
  apply Finset.card_image_of_injective
  intro a b h
  simp at h
  exact Prod.ext h.1 h.2

/-- Passing an arity-1 owlready2 result to the uniform view keeps its
cardinality. -/
theorem wrap1_card (s : Finset String) : (wrap1 s).card = s.card := by
  unfold wrap1
  apply Finset.card_image_of_injective
  intro a b h
  simpa using h

/-- Passing an (entity, data value) owlready2 result to the uniform view
keeps its cardinality. -/
theorem wrapData_card (s : Finset (String × Nat)) : (wrapData s).card = s.card := by
  unfold wrapData
  apply Finset.card_image_of_injective
  intro a b h
  simp at h
  exact Prod.ext h.1 h.2

/-- Looking up a name absent from a catalog fails with a NotFoundError
carrying that name. -/
theorem catalogGet_absent {α : Type} (cat : List (String × α)) (name : String)
    (h : name ∉ cat.map Prod.fst) : catalogGet cat name = Except.error ⟨name⟩ := by
  unfold catalogGet
  have hfind : cat.find? (fun pr => pr.1 == name) = none := by
    rw [List.find?_eq_none]
    intro pr hpr hbeq
    exact h (List.mem_map.mpr ⟨pr, hpr, by simpa using hbeq⟩)
  rw [hfind]

/-- C1: for the multi-hop Engineering-students query (query twenty-one) the
claim says both backends project only the pair (s, y) and never a triple
(s, y, z).  On content with Student s1, s1 isStudentOf org1, org1 isPartOf
z1 and z1 hasCollegeDiscipline Engineering, the owlready2 backend indeed
returns exactly the pair (s1, org1), but the rdflib backend's query
selects ?s ?org ?z and returns exactly the arity-3 tuple (s1, org1, z1):
the filter variable z is projected there, contradicting the claim. -/
theorem c1_engineering_students_projection :
    owlready2_queries.query_twenty_one oC1 = {("s1", "org1")} ∧
    rdflib_queries.query_twenty_one gC1 =
      {[owl2bench "s1", owl2bench "org1", owl2bench "z1"]} := by
  constructor <;> decide

/-- C2: the claim says the two backend catalogs are interchangeable, and in
particular that query nine traverses hasCollegeDiscipline in the same
direction in both.  On identical content consisting of the single fact
"CollegeA hasCollegeDiscipline NonScience", the owlready2 query nine
returns the empty set (it reads the hasCollegeDiscipline values OF the
entity NonScience) while the rdflib query nine returns exactly CollegeA
(it reads subjects whose hasCollegeDiscipline value IS NonScience): the
two traverse the property in opposite directions and are not
interchangeable. -/
theorem c2_query_nine_direction :
    owlready2_queries.query_nine oC2 = ∅ ∧
    rdflib_queries.query_nine gC2 = {[owl2bench "CollegeA"]} := by
  constructor <;> decide

/-- C3: each backend catalog defines exactly 22 query definitions, and the
aggregator run_all_queries_rl produces, for every ontology handle, a
report whose keys are exactly the backend's RL allow-list (each name
exactly once, in order), where the value under each name is the
cardinality of the result set of the catalog query of that name (a Nat,
hence non-negative). -/
theorem c3_catalog_and_aggregator :
    owlCatalog.length = 22 ∧ rdfCatalog.length = 22 ∧
    (∀ o : owlready2_queries.OwlOnto,
      (owlready2_queries.run_all_queries_rl o).map Prod.fst = owlRlNames ∧
      owlRlNames.Nodup ∧
      ∀ pr ∈ owlready2_queries.run_all_queries_rl o,
        (catalogGet owlCatalog pr.1).map (fun q => (q o).card) = Except.ok pr.2) ∧
    (∀ g : rdflib_queries.Graph,
      (rdflib_queries.run_all_queries_rl g).map Prod.fst = rdfRlNames ∧
      rdfRlNames.Nodup ∧
      ∀ pr ∈ rdflib_queries.run_all_queries_rl g,
        (catalogGet rdfCatalog pr.1).map (fun q => (q g).card) = Except.ok pr.2) := by
  refine ⟨rfl, rfl, ?_, ?_⟩
  · intro o
    refine ⟨rfl, by decide, ?_⟩
    intro pr hpr
    simp [owlready2_queries.run_all_queries_rl] at hpr
    rcases hpr with rfl|rfl|rfl|rfl|rfl|rfl|rfl|rfl|rfl|rfl|rfl|rfl|rfl|rfl <;>
      simp [catalogGet, owlCatalog, Except.map, wrap1_card, wrap2_card, wrapData_card]
  · intro g
    refine ⟨rfl, by decide, ?_⟩
    intro pr hpr
    simp [rdflib_queries.run_all_queries_rl] at hpr
    rcases hpr with rfl|rfl|rfl|rfl|rfl|rfl|rfl|rfl|rfl|rfl|rfl|rfl|rfl|rfl|rfl <;>
      simp [catalogGet, rdfCatalog, Except.map]

/-- C3 witness: at the concrete empty ontology the owlready2 report keys are
exactly the owl allow-list, the rdflib report keys on the empty graph are
exactly the rdflib allow-list, and the value recorded under "two" is the
cardinality of the catalog's query "two". -/
theorem c3_catalog_and_aggregator_witness :
    (owlready2_queries.run_all_queries_rl oC3).map Prod.fst = owlRlNames ∧
    (rdflib_queries.run_all_queries_rl []).map Prod.fst = rdfRlNames ∧
    (catalogGet owlCatalog "two").map (fun q => (q oC3).card) =
      Except.ok ((owlready2_queries.query_two oC3).card) :=
  ⟨(c3_catalog_and_aggregator.2.2.1 oC3).1,
   (c3_catalog_and_aggregator.2.2.2 []).1,
   (c3_catalog_and_aggregator.2.2.1 oC3).2.2
     ("two", (owlready2_queries.query_two oC3).card) (by decide)⟩

/-- C4: every query of either catalog returns a deduplicated result set on
every handle: the list of its tuples has no duplicates, regardless of how
many times the underlying traversal or SPARQL engine yields a binding
(both backends accumulate into a set). -/
theorem c4_result_sets_deduplicated :
    (∀ p ∈ owlCatalog, ∀ o : owlready2_queries.OwlOnto, (p.2 o).toList.Nodup) ∧
    (∀ p ∈ rdfCatalog, ∀ g : rdflib_queries.Graph, (p.2 g).toList.Nodup) :=
  ⟨fun p _ o => (p.2 o).nodup_toList, fun p _ g => (p.2 g).nodup_toList⟩

/-- C4 witness: the "one" entry of each catalog, on a handle whose knows
traversal would yield the binding (a, a) once per occurrence, returns a
duplicate-free result list. -/
theorem c4_result_sets_deduplicated_witness :
    (wrap2 (owlready2_queries.query_one oC4)).toList.Nodup ∧
    (rdflib_queries.query_one gC4).toList.Nodup :=
  ⟨c4_result_sets_deduplicated.1
     ("one", fun o => wrap2 (owlready2_queries.query_one o)) (by simp [owlCatalog]) oC4,
   c4_result_sets_deduplicated.2
     ("one", rdflib_queries.query_one) (by simp [rdfCatalog]) gC4⟩

/-- C5: the claim says a Person with no declared hasAge value contributes
zero tuples and a Person with exactly one declared age value contributes
exactly one tuple.  On content where p0 has the single declared age 0 and
p1 the single declared age 25, the owlready2 backend returns only
(p1, 25): the Python truthiness test `if x.hasAge:` also skips the
declared age 0, so p0 contributes zero tuples, contradicting the claim;
the rdflib backend returns both tuples as the claim demands. -/
theorem c5_query_four_age_zero :
    owlready2_queries.query_four oC5 = {("p1", 25)} ∧
    rdflib_queries.query_four gC5 =
      {[owl2bench "p0", "0"], [owl2bench "p1", "25"]} := by
  constructor <;> decide

/-- C6: for the knows global-property-scan query (query one), whenever the
ontology relates individual a to b via knows, the pair (a, b) is in the
result, and a reflexive fact knows(a, a) yields the pair (a, a) — in the
owlready2 backend for any individual of the handle, and in the rdflib
backend for any knows triple of the graph. -/
theorem c6_knows_pass_through :
    (∀ (o : owlready2_queries.OwlOnto) (a b : String),
      a ∈ o.individuals → b ∈ o.rel "knows" a →
      (a, b) ∈ owlready2_queries.query_one o) ∧
    (∀ (o : owlready2_queries.OwlOnto) (a : String),
      a ∈ o.individuals → a ∈ o.rel "knows" a →
      (a, a) ∈ owlready2_queries.query_one o) ∧
    (∀ (g : rdflib_queries.Graph) (a b : String),
      (a, owl2bench "knows", b) ∈ g → [a, b] ∈ rdflib_queries.query_one g) := by
  have howl : ∀ (o : owlready2_queries.OwlOnto) (a b : String),
      a ∈ o.individuals → b ∈ o.rel "knows" a →
      (a, b) ∈ owlready2_queries.query_one o := by
    intro o a b ha hb
    unfold owlready2_queries.query_one
    rw [List.mem_toFinset, List.mem_flatMap]
    exact ⟨a, ha, List.mem_map.mpr ⟨b, hb, rfl⟩⟩
  refine ⟨howl, fun o a ha haa => howl o a a ha haa, ?_⟩
  intro g a b h
  unfold rdflib_queries.query_one rdflib_queries.run_sparql
  rw [List.mem_toFinset, List.mem_map]
  refine ⟨[some a, some b], ?_, rfl⟩
  exact List.mem_filterMap.mpr ⟨(a, owl2bench "knows", b), h, by simp⟩

/-- C6 witness: on a handle where A knows B and A knows A, both (A, B) and
the reflexive pair (A, A) are in the owlready2 result, and on a graph with
the knows triple the pair is in the rdflib result. -/
theorem c6_knows_pass_through_witness :
    ("A", "B") ∈ owlready2_queries.query_one oC6 ∧
    ("A", "A") ∈ owlready2_queries.query_one oC6 ∧
    [owl2bench "A", owl2bench "B"] ∈ rdflib_queries.query_one gC6 :=
  ⟨c6_knows_pass_through.1 oC6 "A" "B" (by decide) (by decide),
   c6_knows_pass_through.2.1 oC6 "A" (by decide) (by decide),
   c6_knows_pass_through.2.2 gC6 (owl2bench "A") (owl2bench "B") (by decide)⟩

/-- C7: every query of either catalog is idempotent and read-only: one
evaluate call returns the handle unchanged, and a second evaluate call on
the handle returned by the first yields the same result set. -/
theorem c7_evaluate_idempotent_readonly :
    (∀ p ∈ owlCatalog, ∀ o : owlready2_queries.OwlOnto,
      (evalOwl p.2 o).2 = o ∧
      (evalOwl p.2 ((evalOwl p.2 o).2)).1 = (evalOwl p.2 o).1) ∧
    (∀ p ∈ rdfCatalog, ∀ g : rdflib_queries.Graph,
      (evalRdf p.2 g).2 = g ∧
      (evalRdf p.2 ((evalRdf p.2 g).2)).1 = (evalRdf p.2 g).1) :=
  ⟨fun _ _ _ => ⟨rfl, rfl⟩, fun _ _ _ => ⟨rfl, rfl⟩⟩

/-- C7 witness: the "one" entry of each catalog, evaluated on a concrete
handle, returns the handle unchanged. -/
theorem c7_evaluate_idempotent_readonly_witness :
    (evalOwl (fun o => wrap2 (owlready2_queries.query_one o)) oC7).2 = oC7 ∧
    (evalRdf rdflib_queries.query_one gC7).2 = gC7 :=
  ⟨(c7_evaluate_idempotent_readonly.1
      ("one", fun o => wrap2 (owlready2_queries.query_one o)) (by simp [owlCatalog]) oC7).1,
   (c7_evaluate_idempotent_readonly.2
      ("one", rdflib_queries.query_one) (by simp [rdfCatalog]) gC7).1⟩

/-- C8: every query of either catalog, evaluated on a handle in which every
property extent, functional data property and class extent is empty (the
individuals may be anything), or on an empty graph, returns the empty
result set as a successful value — the queries are total functions, so an
empty extent yields cardinality 0 rather than an error. -/
theorem c8_zero_members_empty_result :
    (∀ p ∈ owlCatalog, ∀ o : owlready2_queries.OwlOnto,
      (∀ pr x, o.rel pr x = []) → (∀ x, o.hasAge x = none) →
      (∀ c, o.instancesOf c = []) → p.2 o = ∅) ∧
    (∀ p ∈ rdfCatalog, p.2 [] = ∅) := by
  constructor
  · intro p hp o hrel hage hinst
    simp [owlCatalog] at hp
    rcases hp with rfl|rfl|rfl|rfl|rfl|rfl|rfl|rfl|rfl|rfl|rfl|rfl|rfl|rfl|rfl|rfl|rfl|rfl|rfl|rfl|rfl|rfl <;>
    simp [wrap1, wrap2, wrapData,
      owlready2_queries.query_one, owlready2_queries.query_two,
      owlready2_queries.query_three, owlready2_queries.query_four,
      owlready2_queries.query_five, owlready2_queries.query_six,
      owlready2_queries.query_seven, owlready2_queries.query_eight,
      owlready2_queries.query_nine, owlready2_queries.query_ten,
      owlready2_queries.query_eleven, owlready2_queries.query_twelve,
      owlready2_queries.query_thirteen, owlready2_queries.query_fourteen,
      owlready2_queries.query_fifteen, owlready2_queries.query_sixteen,
      owlready2_queries.query_seventeen, owlready2_queries.query_eighteen,
      owlready2_queries.query_nineteen, owlready2_queries.query_twenty,
      owlready2_queries.query_twenty_one, owlready2_queries.query_twenty_two,
      hrel, hage, hinst]
  · intro p hp
    simp [rdfCatalog] at hp
    rcases hp with rfl|rfl|rfl|rfl|rfl|rfl|rfl|rfl|rfl|rfl|rfl|rfl|rfl|rfl|rfl|rfl|rfl|rfl|rfl|rfl|rfl|rfl <;> rfl

/-- C8 witness: the "one" entry of each catalog returns the empty set on a
fact-free handle with two individuals, and on the empty graph. -/
theorem c8_zero_members_empty_result_witness :
    wrap2 (owlready2_queries.query_one oC8) = ∅ ∧
    rdflib_queries.query_one [] = ∅ :=
  ⟨c8_zero_members_empty_result.1
     ("one", fun o => wrap2 (owlready2_queries.query_one o)) (by simp [owlCatalog]) oC8
     (fun _ _ => rfl) (fun _ => rfl) (fun _ => rfl),
   c8_zero_members_empty_result.2
     ("one", rdflib_queries.query_one) (by simp [rdfCatalog])⟩

/-- C9: for every name not present in a catalog, the lookup get(name) fails
with NotFoundError carrying the offending name, and all() returns the
query definitions unfiltered in canonical declaration order (the same
22-name order in both backends). -/
theorem c9_catalog_get_not_found :
    (∀ name : String, name ∉ owlCatalog.map Prod.fst →
      catalogGet owlCatalog name = Except.error ⟨name⟩) ∧
    (∀ name : String, name ∉ rdfCatalog.map Prod.fst →
      catalogGet rdfCatalog name = Except.error ⟨name⟩) ∧
    catalogAll owlCatalog = owlCatalog ∧
    (catalogAll owlCatalog).map Prod.fst = queryDeclOrder ∧
    catalogAll rdfCatalog = rdfCatalog ∧
    (catalogAll rdfCatalog).map Prod.fst = queryDeclOrder :=
  ⟨fun name h => catalogGet_absent owlCatalog name h,
   fun name h => catalogGet_absent rdfCatalog name h,
   rfl, rfl, rfl, rfl⟩

/-- C9 witness: looking up the absent name "twenty_three" in either catalog
fails with a NotFoundError carrying that name. -/
theorem c9_catalog_get_not_found_witness :
    catalogGet owlCatalog "twenty_three" = Except.error ⟨"twenty_three"⟩ ∧
    catalogGet rdfCatalog "twenty_three" = Except.error ⟨"twenty_three"⟩ :=
  ⟨c9_catalog_get_not_found.1 "twenty_three" (by decide),
   c9_catalog_get_not_found.2.1 "twenty_three" (by decide)⟩

/-- C10: every tuple produced by the rdflib _run_sparql wrapper is the
componentwise stringification of one of the engine's solution rows, where
a bound value is rendered by str and an unbound (None) binding is rendered
as the empty string; and every query of the rdflib catalog factors through
_run_sparql, so all its result tuples consist solely of strings. -/
theorem c10_sparql_bindings_stringified :
    (∀ (rows : List (List (Option String))) (t : List String),
      t ∈ rdflib_queries.run_sparql rows →
      ∃ row ∈ rows, t = row.map rdflib_queries.strBinding) ∧
    rdflib_queries.strBinding none = "" ∧
    (∀ v : String, rdflib_queries.strBinding (some v) = v) ∧
    (∀ p ∈ rdfCatalog, ∀ g : rdflib_queries.Graph,
      ∃ rows, p.2 g = rdflib_queries.run_sparql rows) := by
  refine ⟨?_, rfl, fun _ => rfl, ?_⟩
  · intro rows t ht
    rw [rdflib_queries.run_sparql, List.mem_toFinset, List.mem_map] at ht
    rcases ht with ⟨row, hrow, h⟩
    exact ⟨row, hrow, h.symm⟩
  · intro p hp g
    simp [rdfCatalog] at hp
    rcases hp with rfl|rfl|rfl|rfl|rfl|rfl|rfl|rfl|rfl|rfl|rfl|rfl|rfl|rfl|rfl|rfl|rfl|rfl|rfl|rfl|rfl|rfl <;>
      exact ⟨_, rfl⟩

/-- C10 witness: the tuple produced for the concrete solution row holding a
bound "a" and an unbound binding is exactly its stringification, with the
unbound position rendered as the empty string. -/
theorem c10_sparql_bindings_stringified_witness :
    ["a", ""] = [some "a", (none : Option String)].map rdflib_queries.strBinding := by
  rcases c10_sparql_bindings_stringified.1 [[some "a", none]] ["a", ""]
    (by decide) with ⟨row, hrow, h⟩
  simp at hrow
  subst hrow
  exact h
